import Mathlib

/-!
Verification of the identity-and-access-control subsystem of the HRMS
backend (Express/Prisma).  Each definition is a shallow embedding of a
route handler or middleware of the repository; persistent stores (Prisma
tables) are embedded as lists carried in explicit state records, and the
random values that the code mints (token strings, row ids) are passed in
as parameters.  Fallible handlers return `Except AppError`.
-/

namespace HRMS

/-- Roles of the `role` enum used across the repository
(`z.enum(['ADMIN','HR','MANAGER','EMPLOYEE'])`). -/
inductive Role where
  | ADMIN
  | HR
  | MANAGER
  | EMPLOYEE
deriving DecidableEq, Repr

/-- Audit action kinds recorded by the audit middleware
(CREATE / UPDATE / DELETE / READ as used at the call sites). -/
inductive AuditAction where
  | CREATE
  | UPDATE
  | DELETE
  | READ
deriving DecidableEq, Repr

/-- Error taxonomy of `src/utils/errors.js` plus the `InvalidToken`
failure that the spec assigns to refresh and reset tokens.
`appError` carries the message and HTTP status of the `AppError` class;
`authenticationError` carries message and error code. -/
inductive AppError where
  | appError (message : String) (statusCode : Nat)
  | authenticationError (message : String) (code : String)
  | notFoundError (message : String)
  | validationError (message : String)
  | invalidToken
deriving DecidableEq, Repr

/-- The employee record linked to an authenticated user, as loaded by the
`authenticate` middleware include; only the primary key is relevant to
the authorization checks. -/
structure EmployeeRef where
  id : String
deriving DecidableEq, Repr

/-- A row of the `user` table as the handlers see it: id, unique email,
stored password hash, role, active flag, optional linked employee
profile, last-login timestamp. -/
structure User where
  id : String
  email : String
  password : String
  role : Role
  isActive : Bool
  employee : Option EmployeeRef
  lastLoginAt : Option Nat
deriving DecidableEq, Repr

/-- A row of the `refreshToken` table: opaque token value, owning user
id, expiry timestamp (milliseconds). -/
structure RefreshToken where
  token : String
  userId : String
  expiresAt : Nat
deriving DecidableEq, Repr

/-- A row of the `passwordResetToken` ledger: token value, owning user
id, expiry timestamp. -/
structure PasswordResetToken where
  token : String
  userId : String
  expiresAt : Nat
deriving DecidableEq, Repr

/-- Modelled from the spec: an `AuditLogEntry` produced by
`createAuditLog(userId, action, resource, resourceId, old, new, req)` of
`src/middleware/auditMiddleware.js`, whose implementation is not under
src/ (only its call sites are).  The spec: an append-only record of
actor user id, action kind, resource type and resource id (nullable for
collection-level reads); the before/after snapshots and request context
are not needed by any claim and are left out. -/
structure AuditLogEntry where
  userId : String
  action : AuditAction
  resource : String
  resourceId : Option String
deriving DecidableEq, Repr

/-- State threaded through the auth routes: the `user`, `refreshToken`
and `passwordResetToken` tables plus the audit log. -/
structure AuthState where
  users : List User
  refreshTokens : List RefreshToken
  resetTokens : List PasswordResetToken
  auditLogs : List AuditLogEntry
deriving DecidableEq, Repr

/-- Abstraction of the bcryptjs functions used by the auth routes:
`hash(password, saltRounds)` and `compare(plaintext, digest)`. -/
structure Hasher where
  hash : Nat → String → String
  compare : String → String → Bool

/-- A hasher is sound when comparing a plaintext against a digest
succeeds exactly for the hashed plaintext (the contract bcrypt
provides). -/
def Hasher.Sound (h : Hasher) : Prop :=
  ∀ r p q, h.compare p (h.hash r q) = true ↔ p = q

/-- A trivially sound hasher used to instantiate theorems on concrete
inputs: the digest is the plaintext itself. -/
def idHasher : Hasher where
  hash := fun _ p => p
  compare := fun p d => p == d

theorem idHasher_sound : idHasher.Sound := by
  intro r p q
  simp [Hasher.Sound, idHasher]

/-- Credential verification of the POST /login handler
(`src/routes/authRoutes.js` lines 83-96): look the user up by email;
if no user is found or the user is inactive, or the bcrypt comparison
fails, throw `AuthenticationError('Invalid credentials', null,
'INVALID_CREDENTIALS')`; otherwise the user is returned. -/
def verifyCredentials (h : Hasher) (users : List User) (email password : String) :
    Except AppError User :=
  match users.find? (fun u => u.email == email) with
  | none => .error (.authenticationError "Invalid credentials" "INVALID_CREDENTIALS")
  | some u =>
    if !u.isActive then
      .error (.authenticationError "Invalid credentials" "INVALID_CREDENTIALS")
    else if !(h.compare password u.password) then
      .error (.authenticationError "Invalid credentials" "INVALID_CREDENTIALS")
    else
      .ok u

/-- The POST /login handler (`src/routes/authRoutes.js` lines 74-130):
verify credentials; generate tokens (the freshly minted access and
refresh token strings are parameters `newAccess` / `newRefresh`); delete
every refresh token of the user (`prisma.refreshToken.deleteMany`);
store the new refresh token with expiry `now + expiresMs`; update the
last-login timestamp.  The handler makes no audit call. -/
def login (h : Hasher) (s : AuthState) (email password newAccess newRefresh : String)
    (now expiresMs : Nat) : Except AppError (AuthState × String × String) :=
  match verifyCredentials h s.users email password with
  | .error e => .error e
  | .ok u =>
    let refreshTokens' :=
      (s.refreshTokens.filter (fun rt => !(rt.userId == u.id)))
        ++ [{ token := newRefresh, userId := u.id, expiresAt := now + expiresMs }]
    let users' := s.users.map (fun v =>
      if v.id == u.id then { v with lastLoginAt := some now } else v)
    .ok ({ s with refreshTokens := refreshTokens', users := users' }, newAccess, newRefresh)

/-- Modelled from the spec: `refresh(refreshToken) -> accessToken` of
the Token Issuer (section 4.2).  The refresh endpoint and
`verifyRefreshToken` live in `src/utils/authUtils.js`, which is not
under src/.  Per the spec it fails with `InvalidToken` if the token is
absent, expired, or already rotated (rotation removes the row, so a
rotated token is absent); on success a new access token is issued
without rotating the refresh token itself. -/
def refresh (s : AuthState) (token newAccess : String) (now : Nat) :
    Except AppError String :=
  match s.refreshTokens.find? (fun rt => rt.token == token) with
  | none => .error .invalidToken
  | some rt => if rt.expiresAt < now then .error .invalidToken else .ok newAccess

/-- The POST /register handler (`src/routes/authRoutes.js` lines
24-71): reject a duplicate email with
`ValidationError('User already exists with this email')`; hash the
password with `bcrypt.hash(password, saltRounds)`; create the user
(`isActive` defaults to true per the User data model: users start
active and are only ever deactivated); store a refresh token with
expiry `now + expiresMs`; append one CREATE audit entry for resource
`users` with the new user as both actor and resource id.  The minted
ids and token strings are the parameters `newUserId`, `newAccess`,
`newRefresh`. -/
def register (h : Hasher) (s : AuthState) (email password : String) (role : Role)
    (newUserId newAccess newRefresh : String) (saltRounds now expiresMs : Nat) :
    Except AppError (AuthState × User × String × String) :=
  if (s.users.find? (fun u => u.email == email)).isSome then
    .error (.validationError "User already exists with this email")
  else
    let user : User :=
      { id := newUserId, email := email, password := h.hash saltRounds password,
        role := role, isActive := true, employee := none, lastLoginAt := none }
    let rt : RefreshToken :=
      { token := newRefresh, userId := user.id, expiresAt := now + expiresMs }
    let entry : AuditLogEntry :=
      { userId := user.id, action := .CREATE, resource := "users", resourceId := some user.id }
    .ok ({ s with users := s.users ++ [user],
                  refreshTokens := s.refreshTokens ++ [rt],
                  auditLogs := s.auditLogs ++ [entry] },
         user, newAccess, newRefresh)

/-- Modelled from the spec: the role check of the `authorize`
middleware of `src/middleware/auth.js`, which is not under src/ (only
its call sites such as `authorize('ADMIN', 'HR')` are).  Spec section
4.4, RoleChecked: the caller role must be a member of the endpoint
declared allowed-role set; failure is `Denied` (403). -/
def authorize (allowedRoles : List Role) (callerRole : Role) : Except AppError Unit :=
  if callerRole ∈ allowedRoles then .ok () else .error (.appError "Access denied" 403)

/-- The allowed-role set declared on the users list route
(`router.get('/', authenticate, authorize('ADMIN', 'HR'), ...)` in the
user routes file). -/
def usersListAllowedRoles : List Role := [.ADMIN, .HR]

/-- A row of the `payrollRecord` table; the fields the payroll route
handlers consult: id, owning employee id, pay-period start, status. -/
structure PayrollRecord where
  id : String
  employeeId : String
  payPeriodStart : Nat
  status : String
deriving DecidableEq, Repr

/-- State threaded through the payroll routes: the `payrollRecord`
table plus the audit log. -/
structure PayrollState where
  records : List PayrollRecord
  auditLogs : List AuditLogEntry
deriving DecidableEq, Repr

/-- The GET /:id payroll handler (`src/routes/payrollRecordRoutes.js`
lines 119-152): find the record; `NotFoundError` when absent; then
`if (req.user.role === 'EMPLOYEE' && req.user.employee?.id !==
record.employeeId) throw new AppError('Access denied', 403)` — note
that a caller with no linked employee profile has `employee?.id ===
undefined`, which never equals a record id; on success append one READ
audit entry for `payroll_records` and return the record. -/
def getPayrollRecordById (s : PayrollState) (caller : User) (id : String) :
    Except AppError (PayrollState × PayrollRecord) :=
  match s.records.find? (fun r => r.id == id) with
  | none => .error (.notFoundError "Payroll record not found")
  | some record =>
    if caller.role = .EMPLOYEE ∧ caller.employee.map EmployeeRef.id ≠ some record.employeeId then
      .error (.appError "Access denied" 403)
    else
      .ok ({ s with auditLogs := s.auditLogs ++
               [{ userId := caller.id, action := .READ, resource := "payroll_records",
                  resourceId := some id }] },
           record)

/-- The validated query of the payroll list route
(`listPayrollRecordsSchema`): optional employee, status and pay-period
date filters (pagination is not relevant to the ownership claim and is
left to the list slice). -/
structure PayrollQuery where
  employeeId : Option String
  status : Option String
  startDate : Option Nat
  endDate : Option Nat
deriving DecidableEq, Repr

/-- The `where` object the GET / payroll handler builds
(`src/routes/payrollRecordRoutes.js` lines 65-76): query filters
first, then — only when `req.user.role === 'EMPLOYEE' &&
req.user.employee` — the employee filter is overwritten with the
caller linked employee id. -/
def payrollListWhere (caller : User) (q : PayrollQuery) : PayrollQuery :=
  if caller.role = .EMPLOYEE ∧ caller.employee.isSome then
    { q with employeeId := caller.employee.map EmployeeRef.id }
  else
    q

/-- Whether a payroll record matches a `where` object: conjunction of
the optional equality and pay-period range filters, as Prisma evaluates
the object built by the handler. -/
def payrollMatches (w : PayrollQuery) (r : PayrollRecord) : Bool :=
  (match w.employeeId with | none => true | some e => r.employeeId == e)
    && (match w.status with | none => true | some st => r.status == st)
    && (match w.startDate with | none => true | some d => d ≤ r.payPeriodStart)
    && (match w.endDate with | none => true | some d => r.payPeriodStart ≤ d)

/-- The GET / payroll list handler (`src/routes/payrollRecordRoutes.js`
lines 60-116) restricted to the record selection: the rows of the
table matching the effective `where` object (pagination ordering and
slicing do not affect which employees rows may belong to), plus one
READ audit entry with a null resource id. -/
def listPayrollRecords (s : PayrollState) (caller : User) (q : PayrollQuery) :
    PayrollState × List PayrollRecord :=
  ({ s with auditLogs := s.auditLogs ++
      [{ userId := caller.id, action := .READ, resource := "payroll_records",
         resourceId := none }] },
   s.records.filter (payrollMatches (payrollListWhere caller q)))

/-- A row of the `department` table as the department routes handle it. -/
structure Department where
  id : String
  name : String
  managerId : Option String
  parentId : Option String
  isActive : Bool
  description : Option String
deriving DecidableEq, Repr

/-- A row of the `setting` table as the settings routes handle it. -/
structure Setting where
  id : String
  key : String
  value : String
  category : Option String
  isPublic : Option Bool
deriving DecidableEq, Repr

/-- A row of the `trainingRecord` table as the training-record routes
handle it. -/
structure TrainingRecord where
  id : String
  employeeId : String
  programId : String
deriving DecidableEq, Repr

/-- State threaded through the department, settings and training-record
routes: the tables they touch, the `employee` table they validate
against, and the audit log. -/
structure OrgState where
  departments : List Department
  employees : List EmployeeRef
  settings : List Setting
  trainingRecords : List TrainingRecord
  auditLogs : List AuditLogEntry
deriving DecidableEq, Repr

/-- The validated body of the department create route
(`departmentSchema`). -/
structure DepartmentBody where
  name : String
  managerId : Option String
  parentId : Option String
  description : Option String
deriving DecidableEq, Repr

/-- The POST / department handler (departmentRoutes.js lines 135-170):
reject a duplicate name, a missing manager, a missing parent; create
the department with `isActive: true`; append exactly one CREATE audit
entry `createAuditLog(req.user.id, 'CREATE', 'department',
department.id, null, department, req)`. -/
def createDepartment (s : OrgState) (callerId : String) (b : DepartmentBody)
    (newId : String) : Except AppError (OrgState × Department) :=
  if (s.departments.find? (fun d => d.name == b.name)).isSome then
    .error (.validationError "Department name already exists")
  else if b.managerId.any (fun m => (s.employees.find? (fun e => e.id == m)).isNone) then
    .error (.validationError "Manager not found")
  else if b.parentId.any (fun p => (s.departments.find? (fun d => d.id == p)).isNone) then
    .error (.validationError "Parent department not found")
  else
    let department : Department :=
      { id := newId, name := b.name, managerId := b.managerId, parentId := b.parentId,
        isActive := true, description := b.description }
    .ok ({ s with departments := s.departments ++ [department],
                  auditLogs := s.auditLogs ++
                    [{ userId := callerId, action := .CREATE, resource := "department",
                       resourceId := some department.id }] },
         department)

/-- The validated body of the settings create route (`settingSchema`). -/
structure SettingBody where
  key : String
  value : String
  category : Option String
  isPublic : Option Bool
deriving DecidableEq, Repr

/-- The POST / settings handler (settings routes, lines 75-82): after
the auth and role middleware, `prisma.setting.create({ data: req.body })`
and respond 201 — the handler makes no `createAuditLog` call, so the
audit log is returned unchanged. -/
def createSetting (s : OrgState) (b : SettingBody) (newId : String) :
    OrgState × Setting :=
  let setting : Setting :=
    { id := newId, key := b.key, value := b.value, category := b.category,
      isPublic := b.isPublic }
  ({ s with settings := s.settings ++ [setting] }, setting)

/-- The validated body of the training-record create route
(`trainingRecordSchema`). -/
structure TrainingRecordBody where
  employeeId : String
  programId : String
deriving DecidableEq, Repr

/-- The POST / training-record handler (trainingRecord routes, lines
346-359): after the auth and role middleware,
`prisma.trainingRecord.create({ data: req.body })` and respond 201 —
again with no `createAuditLog` call. -/
def createTrainingRecord (s : OrgState) (b : TrainingRecordBody) (newId : String) :
    OrgState × TrainingRecord :=
  let record : TrainingRecord :=
    { id := newId, employeeId := b.employeeId, programId := b.programId }
  ({ s with trainingRecords := s.trainingRecords ++ [record] }, record)

/-- Modelled from the spec: `requestReset(email)` of the Password Reset
Flow (section 4.3), implemented by `userService.requestPasswordReset`,
which is not under src/ (only its caller, the POST
/reset-password-request route, is).  Per the spec it always returns
success regardless of whether the email exists; if the user exists, a
single-use token with a short expiry (at most one hour, 3600000 ms) is
created.  The minted token value is the parameter `newToken`; the
returned Bool is the caller-visible success flag. -/
def requestReset (s : AuthState) (email newToken : String) (now : Nat) :
    AuthState × Bool :=
  match s.users.find? (fun u => u.email == email) with
  | none => (s, true)
  | some u =>
    ({ s with resetTokens := s.resetTokens ++
        [{ token := newToken, userId := u.id, expiresAt := now + 3600000 }] },
     true)

/-- Modelled from the spec: `completeReset(token, newPassword)` of the
Password Reset Flow (section 4.3), implemented by
`userService.resetPassword`, which is not under src/ (only its caller,
the PATCH /reset-password route, is).  Per the spec it fails with
`InvalidToken` if the token is missing, expired, or already consumed
(consumption deletes the ledger row, so a consumed token is missing);
on success the password hash of the owning user is replaced and the
token is consumed in the same state transition. -/
def completeReset (h : Hasher) (s : AuthState) (token newPassword : String)
    (saltRounds now : Nat) : Except AppError AuthState :=
  match s.resetTokens.find? (fun rt => rt.token == token) with
  | none => .error .invalidToken
  | some rt =>
    if rt.expiresAt < now then .error .invalidToken
    else if (s.users.find? (fun u => u.id == rt.userId)).isNone then
      .error .invalidToken
    else
      .ok { s with
              users := s.users.map (fun u =>
                if u.id == rt.userId then
                  { u with password := h.hash saltRounds newPassword }
                else u),
              resetTokens := s.resetTokens.filter (fun t => !(t.token == token)) }

/-- The validated query of the audit-log list route
(`auditLogSchema`): optional user, action and resource filters plus
pagination. -/
structure AuditLogQuery where
  userId : Option String
  action : Option AuditAction
  resource : Option String
  page : Nat
  limit : Nat
deriving DecidableEq, Repr

/-- The response body of the audit-log list route. -/
structure AuditLogListResponse where
  logs : List AuditLogEntry
  total : Nat
  page : Nat
  limit : Nat
deriving DecidableEq, Repr

/-- The GET / audit-log list handler (`src/routes/auditLogRoutes.js`
lines 30-48): after the auth and role middleware (`roleMiddleware(
'ADMIN', 'HR')`, modelled by `authorize`), the handler builds the
filter object but then responds with the hardcoded `const logs = [];
const total = 0;` — the stored audit entries are never queried. -/
def auditLogListHandler (store : List AuditLogEntry) (caller : User)
    (q : AuditLogQuery) : Except AppError AuditLogListResponse :=
  match authorize [.ADMIN, .HR] caller.role with
  | .error e => .error e
  | .ok _ =>
    let _ := store
    .ok { logs := [], total := 0, page := q.page, limit := q.limit }

/-! Shared helper lemmas. -/

/-- Mapping a function that does not change the value of the search
predicate commutes with `find?`. -/
theorem find?_map_comm {α : Type} (f : α → α) (p : α → Bool)
    (hf : ∀ x, p (f x) = p x) (l : List α) :
    (l.map f).find? p = (l.find? p).map f := by
  induction l with
  | nil => rfl
  | cons a l ih =>
    by_cases ha : p a = true
    · simp [List.find?, hf, ha]
    · simp only [Bool.not_eq_true] at ha
      simp [List.find?, hf, ha, ih]

/-- Inversion of a successful credential verification: the user was
found by email, is active, and the comparison succeeded. -/
theorem verifyCredentials_ok {h : Hasher} {users : List User} {email password : String}
    {u : User} (hok : verifyCredentials h users email password = .ok u) :
    users.find? (fun v => v.email == email) = some u ∧ u.isActive = true ∧
      h.compare password u.password = true := by
  unfold verifyCredentials at hok
  rcases hfind : users.find? (fun v => v.email == email) with _ | v
  · rw [hfind] at hok
    exact absurd hok (by simp)
  · rw [hfind] at hok
    by_cases hact : v.isActive = true
    · by_cases hcmp : h.compare password v.password = true
      · simp [hact, hcmp] at hok
        subst hok
        exact ⟨hfind, hact, hcmp⟩
      · simp [hact, hcmp] at hok
    · simp only [Bool.not_eq_true] at hact
      simp [hact] at hok

/-- Inversion of a successful login: the credentials verified to some
user, the refresh-token ledger was rewritten to drop every token of
that user before appending the new one, and the user rows were only
touched at the last-login timestamp. -/
theorem login_ok {h : Hasher} {s : AuthState} {email password newAccess newRefresh : String}
    {now expiresMs : Nat} {s' : AuthState} {a r : String}
    (hok : login h s email password newAccess newRefresh now expiresMs = .ok (s', a, r)) :
    ∃ u, verifyCredentials h s.users email password = .ok u ∧
      s'.users = s.users.map (fun v =>
        if v.id == u.id then { v with lastLoginAt := some now } else v) ∧
      s'.refreshTokens = s.refreshTokens.filter (fun rt => !(rt.userId == u.id))
        ++ [{ token := newRefresh, userId := u.id, expiresAt := now + expiresMs }] ∧
      s'.resetTokens = s.resetTokens ∧ s'.auditLogs = s.auditLogs := by
  unfold login at hok
  rcases hv : verifyCredentials h s.users email password with e | u
  · rw [hv] at hok
    exact absurd hok (by simp)
  · rw [hv] at hok
    simp only [Except.ok.injEq, Prod.mk.injEq] at hok
    exact ⟨u, rfl, by rw [← hok.1], by rw [← hok.1], by rw [← hok.1], by rw [← hok.1]⟩

/-! Claim theorems. -/

/-- C4: credential verification returns the same
`AuthenticationError "Invalid credentials" "INVALID_CREDENTIALS"` in
all three failure cases — unknown email, inactive user, failed hash
comparison — and every failure it can return is that error, so the
caller-visible result never distinguishes a missing user from a wrong
password. -/
theorem verifyCredentials_failure_uniform (h : Hasher) (users : List User)
    (email password : String) (u : User) (e : AppError) :
    (users.find? (fun v => v.email == email) = none →
      verifyCredentials h users email password
        = .error (.authenticationError "Invalid credentials" "INVALID_CREDENTIALS")) ∧
    (users.find? (fun v => v.email == email) = some u → u.isActive = false →
      verifyCredentials h users email password
        = .error (.authenticationError "Invalid credentials" "INVALID_CREDENTIALS")) ∧
    (users.find? (fun v => v.email == email) = some u → u.isActive = true →
      h.compare password u.password = false →
      verifyCredentials h users email password
        = .error (.authenticationError "Invalid credentials" "INVALID_CREDENTIALS")) ∧
    (verifyCredentials h users email password = .error e →
      e = .authenticationError "Invalid credentials" "INVALID_CREDENTIALS") := by
  refine ⟨?_, ?_, ?_, ?_⟩
  · intro hfind
    simp [verifyCredentials, hfind]
  · intro hfind hact
    simp [verifyCredentials, hfind, hact]
  · intro hfind hact hcmp
    simp [verifyCredentials, hfind, hact, hcmp]
  · intro hfail
    unfold verifyCredentials at hfail
    rcases hfind : users.find? (fun v => v.email == email) with _ | v
    · rw [hfind] at hfail
      simp only [Except.error.injEq] at hfail
      exact hfail.symm
    · rw [hfind] at hfail
      by_cases hact : v.isActive
      · by_cases hcmp : h.compare password v.password
        · simp [hact, hcmp] at hfail
        · simp only [Bool.not_eq_true] at hcmp
          simp [hact, hcmp] at hfail
          exact hfail.symm
      · simp only [Bool.not_eq_true] at hact
        simp [hact] at hfail
        exact hfail.symm

/-- C4 witness: on the empty store the lookup fails and verification
returns the canonical opaque error. -/
theorem verifyCredentials_failure_uniform_witness :
    ([] : List User).find? (fun v => v.email == "b@x") = none ∧
      verifyCredentials idHasher [] "b@x" "pw"
        = .error (.authenticationError "Invalid credentials" "INVALID_CREDENTIALS") :=
  ⟨by decide,
   (verifyCredentials_failure_uniform idHasher [] "b@x" "pw"
      { id := "u2", email := "b@x", password := "pw", role := .EMPLOYEE,
        isActive := true, employee := none, lastLoginAt := none }
      (.authenticationError "Invalid credentials" "INVALID_CREDENTIALS")).1 (by decide)⟩

/-- C3: on the users list endpoint, whose declared allowed-role set is
`{ADMIN, HR}` with no ownership rule, a caller with role EMPLOYEE is
always denied (403), and the role check passes exactly when the caller
role is a member of the declared allowed-role set. -/
theorem usersList_role_check (r : Role) :
    authorize usersListAllowedRoles .EMPLOYEE = .error (.appError "Access denied" 403) ∧
      (authorize usersListAllowedRoles r = .ok () ↔ (r = .ADMIN ∨ r = .HR)) := by
  constructor
  · rfl
  · cases r <;> simp [authorize, usersListAllowedRoles]

/-- C3 witness: EMPLOYEE is denied on the users list endpoint while HR
passes the role check. -/
theorem usersList_role_check_witness :
    (authorize usersListAllowedRoles .EMPLOYEE = .error (.appError "Access denied" 403)) ∧
      (authorize usersListAllowedRoles .HR = .ok ()) :=
  ⟨(usersList_role_check .HR).1, (usersList_role_check .HR).2.mpr (Or.inr rfl)⟩

/-- C10: the audit-log list handler responds with the hardcoded empty
page — `logs = []` and `total = 0` — for every authenticated ADMIN or
HR caller, every filter combination and every content of the audit-log
store, so no stored entry is ever returned by it. -/
theorem auditLogList_always_empty (store : List AuditLogEntry) (caller : User)
    (q : AuditLogQuery) (hrole : caller.role = .ADMIN ∨ caller.role = .HR) :
    auditLogListHandler store caller q
      = .ok { logs := [], total := 0, page := q.page, limit := q.limit } := by
  rcases hrole with h | h <;> simp [auditLogListHandler, authorize, h]

/-- C10 witness: an HR caller with a populated store and the default
filters still receives zero logs. -/
theorem auditLogList_always_empty_witness :
    auditLogListHandler
        [{ userId := "u1", action := .CREATE, resource := "department",
           resourceId := some "d1" }]
        { id := "u9", email := "h@x", password := "p", role := .HR, isActive := true,
          employee := none, lastLoginAt := none }
        { userId := none, action := none, resource := none, page := 1, limit := 10 }
      = .ok { logs := [], total := 0, page := 1, limit := 10 } :=
  auditLogList_always_empty _ _ _ (Or.inr rfl)

/-- C2: on the single-payroll-record endpoint, once the record is
resolved, an EMPLOYEE caller succeeds exactly when the linked employee
id of the caller equals the owning employee id of the record, and any
mismatch (including a caller with no linked profile) is rejected with
the 403 access-denied error. -/
theorem payrollGet_employee_ownership (s : PayrollState) (caller : User) (id : String)
    (record : PayrollRecord)
    (hfound : s.records.find? (fun r => r.id == id) = some record)
    (hrole : caller.role = .EMPLOYEE) :
    ((∃ out, getPayrollRecordById s caller id = .ok out ∧ out.2 = record) ↔
        caller.employee.map EmployeeRef.id = some record.employeeId) ∧
      (caller.employee.map EmployeeRef.id ≠ some record.employeeId →
        getPayrollRecordById s caller id = .error (.appError "Access denied" 403)) := by
  by_cases hc : caller.employee.map EmployeeRef.id = some record.employeeId
  · refine ⟨⟨fun _ => hc, fun _ => ?_⟩, fun hne => absurd hc hne⟩
    have hok : getPayrollRecordById s caller id
        = .ok ({ s with auditLogs := s.auditLogs ++
            [{ userId := caller.id, action := .READ, resource := "payroll_records",
               resourceId := some id }] }, record) := by
      simp [getPayrollRecordById, hfound, hc]
    exact ⟨_, hok, rfl⟩
  · have hdenied : getPayrollRecordById s caller id
        = .error (.appError "Access denied" 403) := by
      simp [getPayrollRecordById, hfound, hrole, hc]
    refine ⟨⟨?_, fun h => absurd h hc⟩, fun _ => hdenied⟩
    rintro ⟨out, hout, -⟩
    rw [hdenied] at hout
    exact absurd hout (by simp)

/-- C2 witness: an EMPLOYEE linked to employee e1 reads their own
record p1 successfully, while the same caller is denied on record p2
owned by employee e2. -/
theorem payrollGet_employee_ownership_witness :
    ((∃ out, getPayrollRecordById ⟨[⟨"p1", "e1", 0, "DRAFT"⟩, ⟨"p2", "e2", 0, "DRAFT"⟩], []⟩
          ⟨"u1", "a@x", "pw", .EMPLOYEE, true, some ⟨"e1"⟩, none⟩ "p1" = .ok out ∧
        out.2 = ⟨"p1", "e1", 0, "DRAFT"⟩) ∧
      getPayrollRecordById ⟨[⟨"p1", "e1", 0, "DRAFT"⟩, ⟨"p2", "e2", 0, "DRAFT"⟩], []⟩
          ⟨"u1", "a@x", "pw", .EMPLOYEE, true, some ⟨"e1"⟩, none⟩ "p2"
        = .error (.appError "Access denied" 403)) :=
  ⟨(payrollGet_employee_ownership ⟨[⟨"p1", "e1", 0, "DRAFT"⟩, ⟨"p2", "e2", 0, "DRAFT"⟩], []⟩
      ⟨"u1", "a@x", "pw", .EMPLOYEE, true, some ⟨"e1"⟩, none⟩ "p1" ⟨"p1", "e1", 0, "DRAFT"⟩
      (by decide) rfl).1.mpr (by decide),
   (payrollGet_employee_ownership ⟨[⟨"p1", "e1", 0, "DRAFT"⟩, ⟨"p2", "e2", 0, "DRAFT"⟩], []⟩
      ⟨"u1", "a@x", "pw", .EMPLOYEE, true, some ⟨"e1"⟩, none⟩ "p2" ⟨"p2", "e2", 0, "DRAFT"⟩
      (by decide) rfl).2 (by decide)⟩

/-- C9: on the payroll list endpoint, an EMPLOYEE caller without a
linked employee profile is not restricted to own records: the
ownership overwrite of the employee filter is skipped, the selection
is exactly the records matching the query filters, and any matching
record — whoever owns it — appears in the response. -/
theorem payrollList_skips_ownership_without_profile (s : PayrollState) (caller : User)
    (q : PayrollQuery) (r : PayrollRecord)
    (_hrole : caller.role = .EMPLOYEE) (hemp : caller.employee = none) :
    (listPayrollRecords s caller q).2 = s.records.filter (payrollMatches q) ∧
      (r ∈ s.records → payrollMatches q r = true →
        r ∈ (listPayrollRecords s caller q).2) := by
  have hwhere : payrollListWhere caller q = q := by
    simp [payrollListWhere, hemp]
  refine ⟨by simp [listPayrollRecords, hwhere], fun hr hm => ?_⟩
  simp only [listPayrollRecords, hwhere]
  exact List.mem_filter.mpr ⟨hr, hm⟩

/-- C9 witness: an EMPLOYEE caller with no linked profile lists
payroll records and receives the record owned by employee e2. -/
theorem payrollList_skips_ownership_without_profile_witness :
    (⟨"p2", "e2", 7, "DRAFT"⟩ : PayrollRecord) ∈
        (listPayrollRecords ⟨[⟨"p2", "e2", 7, "DRAFT"⟩], []⟩
          ⟨"u1", "a@x", "pw", .EMPLOYEE, true, none, none⟩
          ⟨none, none, none, none⟩).2 ∧
      (listPayrollRecords ⟨[⟨"p2", "e2", 7, "DRAFT"⟩], []⟩
          ⟨"u1", "a@x", "pw", .EMPLOYEE, true, none, none⟩
          ⟨none, none, none, none⟩).2
        = (⟨[⟨"p2", "e2", 7, "DRAFT"⟩], []⟩ : PayrollState).records.filter
            (payrollMatches ⟨none, none, none, none⟩) :=
  ⟨(payrollList_skips_ownership_without_profile ⟨[⟨"p2", "e2", 7, "DRAFT"⟩], []⟩
      ⟨"u1", "a@x", "pw", .EMPLOYEE, true, none, none⟩ ⟨none, none, none, none⟩
      ⟨"p2", "e2", 7, "DRAFT"⟩ rfl rfl).2 (by decide) (by decide),
   (payrollList_skips_ownership_without_profile ⟨[⟨"p2", "e2", 7, "DRAFT"⟩], []⟩
      ⟨"u1", "a@x", "pw", .EMPLOYEE, true, none, none⟩ ⟨none, none, none, none⟩
      ⟨"p2", "e2", 7, "DRAFT"⟩ rfl rfl).1⟩

/-- C7: a password-reset request reports success whether or not the
email is registered — two stores differing in registration give the
same caller-visible flag — and when the user exists a reset token with
expiry at most one hour after now is created for that user. -/
theorem requestReset_enumeration_safe (s1 s2 : AuthState) (email t1 t2 : String)
    (n1 n2 : Nat) (u : User) :
    (requestReset s1 email t1 n1).2 = true ∧
      (requestReset s1 email t1 n1).2 = (requestReset s2 email t2 n2).2 ∧
      (s1.users.find? (fun v => v.email == email) = some u →
        ∃ rt, rt ∈ (requestReset s1 email t1 n1).1.resetTokens ∧
          rt.token = t1 ∧ rt.userId = u.id ∧ rt.expiresAt ≤ n1 + 3600000) := by
  refine ⟨?_, ?_, ?_⟩
  · cases hf : s1.users.find? (fun v => v.email == email) <;> simp [requestReset, hf]
  · cases hf1 : s1.users.find? (fun v => v.email == email) <;>
      cases hf2 : s2.users.find? (fun v => v.email == email) <;>
      simp [requestReset, hf1, hf2]
  · intro hfind
    refine ⟨{ token := t1, userId := u.id, expiresAt := n1 + 3600000 }, ?_, rfl, rfl, le_refl _⟩
    simp [requestReset, hfind]

/-- C7 witness: the success flag is identical on a store where the
email is registered and on the empty store, and the registered run
creates a one-hour token for the user. -/
theorem requestReset_enumeration_safe_witness :
    (requestReset ⟨[⟨"u1", "a@x", "pw", .EMPLOYEE, true, none, none⟩], [], [], []⟩
        "a@x" "tok1" 5).2 = true ∧
      (requestReset ⟨[⟨"u1", "a@x", "pw", .EMPLOYEE, true, none, none⟩], [], [], []⟩
          "a@x" "tok1" 5).2
        = (requestReset ⟨[], [], [], []⟩ "a@x" "tok2" 5).2 ∧
      (∃ rt, rt ∈ (requestReset ⟨[⟨"u1", "a@x", "pw", .EMPLOYEE, true, none, none⟩],
            [], [], []⟩ "a@x" "tok1" 5).1.resetTokens ∧
        rt.token = "tok1" ∧ rt.userId = "u1" ∧ rt.expiresAt ≤ 5 + 3600000) :=
  ⟨(requestReset_enumeration_safe ⟨[⟨"u1", "a@x", "pw", .EMPLOYEE, true, none, none⟩],
      [], [], []⟩ ⟨[], [], [], []⟩ "a@x" "tok1" "tok2" 5 5
      ⟨"u1", "a@x", "pw", .EMPLOYEE, true, none, none⟩).1,
   (requestReset_enumeration_safe ⟨[⟨"u1", "a@x", "pw", .EMPLOYEE, true, none, none⟩],
      [], [], []⟩ ⟨[], [], [], []⟩ "a@x" "tok1" "tok2" 5 5
      ⟨"u1", "a@x", "pw", .EMPLOYEE, true, none, none⟩).2.1,
   (requestReset_enumeration_safe ⟨[⟨"u1", "a@x", "pw", .EMPLOYEE, true, none, none⟩],
      [], [], []⟩ ⟨[], [], [], []⟩ "a@x" "tok1" "tok2" 5 5
      ⟨"u1", "a@x", "pw", .EMPLOYEE, true, none, none⟩).2.2 (by decide)⟩

/-- C5 counterexample: the settings create handler is a guarded
resource handler (authentication plus an ADMIN role check) whose
successful CREATE produces zero audit entries, not exactly one: on the
empty store it returns the created setting while the audit log stays
empty. -/
theorem guarded_create_without_audit_counterexample :
    (createSetting ⟨[], [], [], [], []⟩ ⟨"theme", "dark", none, none⟩ "s1").2
        = ⟨"s1", "theme", "dark", none, none⟩ ∧
      (createSetting ⟨[], [], [], [], []⟩ ⟨"theme", "dark", none, none⟩ "s1").1.auditLogs
        = [] ∧
      ¬ ((createSetting ⟨[], [], [], [], []⟩
            ⟨"theme", "dark", none, none⟩ "s1").1.auditLogs.length = 1) := by
  decide

/-- C5 amended: handlers that call the audit middleware, such as the
department create handler, append exactly one AuditLogEntry on a
successful CREATE, with actor, action kind and resource id matching
the action; the settings and training-record create handlers make no
audit call and append none. -/
theorem audit_entry_per_mutation_amended (s : OrgState) (callerId : String)
    (b : DepartmentBody) (newId : String) (s' : OrgState) (d : Department)
    (b2 : SettingBody) (i2 : String) (b3 : TrainingRecordBody) (i3 : String)
    (hok : createDepartment s callerId b newId = .ok (s', d)) :
    s'.auditLogs = s.auditLogs ++
        [{ userId := callerId, action := .CREATE, resource := "department",
           resourceId := some d.id }] ∧
      (createSetting s b2 i2).1.auditLogs = s.auditLogs ∧
      (createTrainingRecord s b3 i3).1.auditLogs = s.auditLogs := by
  refine ⟨?_, rfl, rfl⟩
  unfold createDepartment at hok
  by_cases h1 : (s.departments.find? (fun d => d.name == b.name)).isSome = true
  · simp [h1] at hok
  · by_cases h2 : b.managerId.any
        (fun m => (s.employees.find? (fun e => e.id == m)).isNone) = true
    · simp [h1, h2] at hok
    · by_cases h3 : b.parentId.any
          (fun p => (s.departments.find? (fun d => d.id == p)).isNone) = true
      · simp [h1, h2, h3] at hok
      · simp only [h1, h2, h3, Bool.false_eq_true, if_false, Except.ok.injEq,
          Prod.mk.injEq] at hok
        obtain ⟨hs, hd⟩ := hok
        subst hs
        subst hd
        rfl

/-- C5 amended witness: a concrete successful department create
appends exactly the matching entry while the settings and
training-record creates leave the audit log unchanged. -/
theorem audit_entry_per_mutation_amended_witness :
    (⟨[⟨"d1", "Eng", none, none, true, none⟩], [], [], [],
        [⟨"u1", .CREATE, "department", some "d1"⟩]⟩ : OrgState).auditLogs
        = (⟨[], [], [], [], []⟩ : OrgState).auditLogs ++
          [{ userId := "u1", action := .CREATE, resource := "department",
             resourceId := some (Department.id ⟨"d1", "Eng", none, none, true, none⟩) }] ∧
      (createSetting ⟨[], [], [], [], []⟩ ⟨"k", "v", none, none⟩ "s1").1.auditLogs
        = (⟨[], [], [], [], []⟩ : OrgState).auditLogs ∧
      (createTrainingRecord ⟨[], [], [], [], []⟩ ⟨"e1", "pg1"⟩ "t1").1.auditLogs
        = (⟨[], [], [], [], []⟩ : OrgState).auditLogs :=
  audit_entry_per_mutation_amended ⟨[], [], [], [], []⟩ "u1" ⟨"Eng", none, none, none⟩ "d1"
    ⟨[⟨"d1", "Eng", none, none, true, none⟩], [], [], [],
      [⟨"u1", .CREATE, "department", some "d1"⟩]⟩
    ⟨"d1", "Eng", none, none, true, none⟩ ⟨"k", "v", none, none⟩ "s1" ⟨"e1", "pg1"⟩ "t1"
    (by rfl)

/-- Searching an appended list starts over on the right part when the
left part has no hit. -/
theorem find?_append_of_none {α : Type} (p : α → Bool) (l1 l2 : List α)
    (h : l1.find? p = none) : (l1 ++ l2).find? p = l2.find? p := by
  induction l1 with
  | nil => rfl
  | cons a t ih =>
    by_cases ha : p a = true
    · rw [List.find?_cons_of_pos _ ha] at h
      exact absurd h (by simp)
    · have ha' : ¬ p a = true := ha
      rw [List.find?_cons_of_neg _ ha'] at h
      rw [List.cons_append, List.find?_cons_of_neg _ ha']
      exact ih h

/-- C8: a register-then-verify round trip with a sound hasher: after a
successful registration, verifying the same email and password
succeeds with the registered user, and verifying the same email with
any different password fails with the opaque authentication error. -/
theorem register_verify_roundtrip (h : Hasher) (s : AuthState)
    (email password wrong : String) (role : Role) (uid acc rtk a r : String)
    (sr now ems : Nat) (s' : AuthState) (u : User)
    (hs : h.Sound)
    (hok : register h s email password role uid acc rtk sr now ems = .ok (s', u, a, r))
    (hw : wrong ≠ password) :
    verifyCredentials h s'.users email password = .ok u ∧
      verifyCredentials h s'.users email wrong
        = .error (.authenticationError "Invalid credentials" "INVALID_CREDENTIALS") := by
  unfold register at hok
  by_cases hdup : (s.users.find? (fun v => v.email == email)).isSome = true
  · simp [hdup] at hok
  · simp only [hdup, Bool.false_eq_true, if_false, Except.ok.injEq, Prod.mk.injEq] at hok
    obtain ⟨hst, huser, -, -⟩ := hok
    have hnone : s.users.find? (fun v => v.email == email) = none := by
      cases hfind : s.users.find? (fun v => v.email == email) with
      | none => rfl
      | some v => rw [hfind] at hdup; exact absurd rfl hdup
    have husers : s'.users = s.users ++
        [{ id := uid, email := email, password := h.hash sr password, role := role,
           isActive := true, employee := none, lastLoginAt := none }] := by
      rw [← hst]
    have hfind' : s'.users.find? (fun v => v.email == email)
        = some { id := uid, email := email, password := h.hash sr password, role := role,
                 isActive := true, employee := none, lastLoginAt := none } := by
      rw [husers, find?_append_of_none _ _ _ hnone]
      simp [List.find?]
    constructor
    · have hcmp : h.compare password (h.hash sr password) = true := (hs sr password password).mpr rfl
      rw [← huser]
      simp [verifyCredentials, hfind', hcmp]
    · have hcmp : h.compare wrong (h.hash sr password) = false := by
        cases hb : h.compare wrong (h.hash sr password) with
        | false => rfl
        | true => exact absurd ((hs sr wrong password).mp hb) hw
      simp [verifyCredentials, hfind', hcmp]

/-- C8 witness: registering a fresh email on the empty store and
verifying it with the right and with a wrong password, using the sound
identity hasher. -/
theorem register_verify_roundtrip_witness :
    verifyCredentials idHasher
        [⟨"u1", "a@x", "secret99", .EMPLOYEE, true, none, none⟩] "a@x" "secret99"
      = .ok ⟨"u1", "a@x", "secret99", .EMPLOYEE, true, none, none⟩ ∧
      verifyCredentials idHasher
          [⟨"u1", "a@x", "secret99", .EMPLOYEE, true, none, none⟩] "a@x" "other"
        = .error (.authenticationError "Invalid credentials" "INVALID_CREDENTIALS") :=
  register_verify_roundtrip idHasher ⟨[], [], [], []⟩ "a@x" "secret99" "other" .EMPLOYEE
    "u1" "acc1" "rt1" "acc1" "rt1" 12 0 604800000
    ⟨[⟨"u1", "a@x", "secret99", .EMPLOYEE, true, none, none⟩],
      [⟨"rt1", "u1", 604800000⟩], [], [⟨"u1", .CREATE, "users", some "u1"⟩]⟩
    ⟨"u1", "a@x", "secret99", .EMPLOYEE, true, none, none⟩
    idHasher_sound (by rfl) (by decide)

/-- C6: a reset token succeeds at most once.  On a successful
`completeReset` the resulting state simultaneously carries the new
password hash for the owning user and no longer carries the token —
both produced by the single state transition, so no partial state is
observable — and a second call with the same token on the resulting
state fails with `InvalidToken`, leaving the password the one set by
the first successful call. -/
theorem completeReset_single_use (h : Hasher) (s : AuthState) (token pw1 pw2 : String)
    (sr now sr2 now2 : Nat) (s1 : AuthState) (rt : PasswordResetToken) (u : User)
    (hrt : s.resetTokens.find? (fun t => t.token == token) = some rt)
    (hu : s.users.find? (fun v => v.id == rt.userId) = some u)
    (hok : completeReset h s token pw1 sr now = .ok s1) :
    s1.users = s.users.map (fun v =>
        if v.id == rt.userId then { v with password := h.hash sr pw1 } else v) ∧
      s1.resetTokens = s.resetTokens.filter (fun t => !(t.token == token)) ∧
      s1.users.find? (fun v => v.id == rt.userId)
        = some { u with password := h.hash sr pw1 } ∧
      s1.resetTokens.find? (fun t => t.token == token) = none ∧
      completeReset h s1 token pw2 sr2 now2 = .error .invalidToken := by
  unfold completeReset at hok
  rw [hrt] at hok
  by_cases hexp : rt.expiresAt < now
  · simp [hexp] at hok
  · have hexists : (s.users.find? (fun v => v.id == rt.userId)).isNone = false := by
      rw [hu]; rfl
    simp only [hexp, if_false, hexists, Bool.false_eq_true, Except.ok.injEq] at hok
    have husers : s1.users = s.users.map (fun v =>
        if v.id == rt.userId then { v with password := h.hash sr pw1 } else v) := by
      rw [← hok]
    have htoks : s1.resetTokens = s.resetTokens.filter (fun t => !(t.token == token)) := by
      rw [← hok]
    have hpres : ∀ v : User,
        ((if v.id == rt.userId then { v with password := h.hash sr pw1 } else v).id
          == rt.userId) = (v.id == rt.userId) := by
      intro v
      by_cases hv : (v.id == rt.userId) = true <;> simp [hv]
    have hfind1 : s1.users.find? (fun v => v.id == rt.userId)
        = some { u with password := h.hash sr pw1 } := by
      rw [husers, find?_map_comm _ _ hpres, hu]
      have hpu : u.id = rt.userId := by
        have hp := List.find?_some hu
        simpa using hp
      simp [hpu]
    have hfind2 : s1.resetTokens.find? (fun t => t.token == token) = none := by
      rw [htoks]
      rw [List.find?_eq_none]
      intro t ht
      have := (List.mem_filter.mp ht).2
      simp at this
      simp [this]
    refine ⟨husers, htoks, hfind1, hfind2, ?_⟩
    simp [completeReset, hfind2]

/-- C6 witness: a concrete reset consumes its token and sets the new
password atomically, after which the same token fails with
`InvalidToken`. -/
theorem completeReset_single_use_witness :
    (⟨[⟨"u1", "a@x", "new1", .EMPLOYEE, true, none, none⟩], [], [], []⟩ : AuthState).users
        = ([⟨"u1", "a@x", "old", .EMPLOYEE, true, none, none⟩] : List User).map (fun v =>
            if v.id == "u1" then { v with password := idHasher.hash 12 "new1" } else v) ∧
      (⟨[⟨"u1", "a@x", "new1", .EMPLOYEE, true, none, none⟩], [], [], []⟩ :
            AuthState).resetTokens
        = ([⟨"tok1", "u1", 100⟩] : List PasswordResetToken).filter
            (fun t => !(t.token == "tok1")) ∧
      (⟨[⟨"u1", "a@x", "new1", .EMPLOYEE, true, none, none⟩], [], [], []⟩ :
            AuthState).users.find? (fun v => v.id == "u1")
        = some { id := "u1", email := "a@x", password := idHasher.hash 12 "new1",
                 role := .EMPLOYEE, isActive := true, employee := none, lastLoginAt := none } ∧
      (⟨[⟨"u1", "a@x", "new1", .EMPLOYEE, true, none, none⟩], [], [], []⟩ :
            AuthState).resetTokens.find? (fun t => t.token == "tok1") = none ∧
      completeReset idHasher
          ⟨[⟨"u1", "a@x", "new1", .EMPLOYEE, true, none, none⟩], [], [], []⟩
          "tok1" "new2" 12 60 = .error .invalidToken :=
  completeReset_single_use idHasher
    ⟨[⟨"u1", "a@x", "old", .EMPLOYEE, true, none, none⟩], [], [⟨"tok1", "u1", 100⟩], []⟩
    "tok1" "new1" "new2" 12 50 12 60
    ⟨[⟨"u1", "a@x", "new1", .EMPLOYEE, true, none, none⟩], [], [], []⟩
    ⟨"tok1", "u1", 100⟩ ⟨"u1", "a@x", "old", .EMPLOYEE, true, none, none⟩
    (by rfl) (by rfl) (by rfl)

/-- C1: a successful login invalidates every previously issued refresh
token of the user before persisting the new one.  After two successful
logins by the same user, every refresh token the ledger still holds
for that user is the second one, and — provided the first token was
freshly minted (held by no row of the initial ledger) and differs from
the second — a refresh attempt with the first token fails with
`InvalidToken` at any time. -/
theorem login_rotation_invalidates_prior (h : Hasher) (s0 s1 s2 : AuthState)
    (email p1 p2 a1 r1 a2 r2 x1 y1 x2 y2 acc : String)
    (n1 n2 e1 e2 nowR : Nat) (u : User) (rt : RefreshToken)
    (hu : s0.users.find? (fun v => v.email == email) = some u)
    (h1 : login h s0 email p1 a1 r1 n1 e1 = .ok (s1, x1, y1))
    (h2 : login h s1 email p2 a2 r2 n2 e2 = .ok (s2, x2, y2))
    (hfresh : ∀ t ∈ s0.refreshTokens, t.token ≠ r1)
    (hne : r2 ≠ r1) :
    (rt ∈ s2.refreshTokens → rt.userId = u.id → rt.token = r2) ∧
      refresh s2 r1 acc nowR = .error .invalidToken := by
  obtain ⟨u1, hv1, husers1, htok1, -, -⟩ := login_ok h1
  have hfind1 := (verifyCredentials_ok hv1).1
  rw [hu] at hfind1
  have hu1 : u1 = u := by
    simpa using hfind1.symm
  subst hu1
  obtain ⟨u2, hv2, -, htok2, -, -⟩ := login_ok h2
  have hfind2 := (verifyCredentials_ok hv2).1
  rw [husers1] at hfind2
  have hpres : ∀ v : User,
      ((if v.id == u1.id then { v with lastLoginAt := some n1 } else v).email == email)
        = (v.email == email) := by
    intro v
    by_cases hv : (v.id == u1.id) = true <;> simp [hv]
  rw [find?_map_comm _ _ hpres, hu] at hfind2
  have hu2 : u2 = if u1.id == u1.id then { u1 with lastLoginAt := some n1 } else u1 := by
    simpa using hfind2.symm
  have hid2 : u2.id = u1.id := by
    rw [hu2]; simp
  have hmem2 : ∀ t : RefreshToken, t ∈ s2.refreshTokens →
      (t.userId ≠ u1.id ∧ t ∈ s1.refreshTokens) ∨
        t = { token := r2, userId := u2.id, expiresAt := n2 + e2 } := by
    intro t ht
    rw [htok2] at ht
    rcases List.mem_append.mp ht with hL | hR
    · left
      obtain ⟨hmem, hbool⟩ := List.mem_filter.mp hL
      refine ⟨?_, hmem⟩
      simp only [Bool.not_eq_true', beq_eq_false_iff_ne, ne_eq] at hbool
      rw [hid2] at hbool
      exact hbool
    · right
      simpa using hR
  constructor
  · intro hmemrt huid
    rcases hmem2 rt hmemrt with ⟨hneq, -⟩ | heq
    · exact absurd huid hneq
    · rw [heq]
  · have hnone : s2.refreshTokens.find? (fun t => t.token == r1) = none := by
      rw [List.find?_eq_none]
      intro t ht
      rcases hmem2 t ht with ⟨hneq, hmem1⟩ | heq
      · rw [htok1] at hmem1
        rcases List.mem_append.mp hmem1 with hL1 | hR1
        · have hmem0 := (List.mem_filter.mp hL1).1
          have := hfresh t hmem0
          simpa using this
        · have ht1 : t = { token := r1, userId := u1.id, expiresAt := n1 + e1 } := by
            simpa using hR1
          exact absurd (by rw [ht1]) hneq
      · rw [heq]
        simpa using hne
    simp [refresh, hnone]

/-- C1 witness: two concrete logins by the same user on a one-user
store; afterwards the only token the ledger holds for the user is the
second one and refreshing with the first fails with `InvalidToken`. -/
theorem login_rotation_invalidates_prior_witness :
    ((⟨"t2", "u1", 25⟩ : RefreshToken) ∈
        (⟨[⟨"u1", "a@x", "pw", .EMPLOYEE, true, none, some 20⟩],
          [⟨"t2", "u1", 25⟩], [], []⟩ : AuthState).refreshTokens →
      ("u1" : String) = "u1" → ("t2" : String) = "t2") ∧
      refresh ⟨[⟨"u1", "a@x", "pw", .EMPLOYEE, true, none, some 20⟩],
          [⟨"t2", "u1", 25⟩], [], []⟩ "t1" "acc3" 30 = .error .invalidToken := by
  have hmain := login_rotation_invalidates_prior idHasher
    ⟨[⟨"u1", "a@x", "pw", .EMPLOYEE, true, none, none⟩], [], [], []⟩
    ⟨[⟨"u1", "a@x", "pw", .EMPLOYEE, true, none, some 10⟩], [⟨"t1", "u1", 15⟩], [], []⟩
    ⟨[⟨"u1", "a@x", "pw", .EMPLOYEE, true, none, some 20⟩], [⟨"t2", "u1", 25⟩], [], []⟩
    "a@x" "pw" "pw" "acc1" "t1" "acc2" "t2" "acc1" "t1" "acc2" "t2" "acc3"
    10 20 5 5 30
    ⟨"u1", "a@x", "pw", .EMPLOYEE, true, none, none⟩ ⟨"t2", "u1", 25⟩
    (by rfl) (by rfl) (by rfl) (by decide) (by decide)
  exact ⟨fun hm hid => hmain.1 hm hid, hmain.2⟩

end HRMS
